import Mathlib

/-!
Verification of the proxyjoke anti-censorship proxy against its
natural-language specification.

The JavaScript sources are shallowly embedded below.  Buffers are
`List Nat` (byte lists), header objects are finite maps
`String → Option String` built by explicit set/delete operations, and
every call to `Math.random()` is replaced by a value drawn from an
injected deterministic random source, so that each definition is an
executable function of its inputs and of the random draws.
-/

namespace ProxyJoke

/-! ## Fragmentation (`fragmentData`, src/unnamed/part_006 lines 721-747)

`config.fragmentation` holds `enabled`, `minSize`, `maxSize`.  The chunk
size of each loop iteration is `Math.floor(Math.random() * (maxSize -
minSize) + minSize)`; for `minSize < maxSize` the reachable values are
exactly `minSize + k` for `0 ≤ k < maxSize - minSize`, and for
`minSize = maxSize` the value is `minSize`.  The draws are injected as a
stream `rnd : ℕ → ℕ` reduced into that exact range.  The `while` loop is
embedded with explicit fuel: `none` means the fuel was exhausted before
`offset` reached `data.length` (for `1 ≤ minSize` fuel `data.length`
always suffices, see `fragmentGo_total`). -/

structure FragConfig where
  enabled : Bool
  minSize : Nat
  maxSize : Nat

/-- The value of `Math.floor(Math.random() * (maxSize - minSize) + minSize)`
at draw `i`, with the raw random draw injected as `rnd i`. -/
def chunkSizeAt (rnd : Nat → Nat) (minS maxS i : Nat) : Nat :=
  if minS < maxS then minS + rnd i % (maxS - minS) else minS

/-- The `while (offset < data.length)` loop of `fragmentData`:
draw a chunk size, let `end = Math.min(offset + chunkSize, data.length)`,
push `data.slice(offset, end)`, continue from `end`. -/
def fragmentGo (rnd : Nat → Nat) (minS maxS : Nat) (data : List Nat) :
    Nat → Nat → Nat → Option (List (List Nat))
  | _, _, 0 => none
  | offset, i, fuel + 1 =>
    if offset < data.length then
      let size := chunkSizeAt rnd minS maxS i
      let stop := min (offset + size) data.length
      match fragmentGo rnd minS maxS data stop (i + 1) fuel with
      | none => none
      | some rest => some (((data.drop offset).take (stop - offset)) :: rest)
    else
      some []

/-- `fragmentData(data)` from part_006: `[data]` when fragmentation is
disabled, otherwise the chunk loop starting at offset 0. -/
def fragmentData (rnd : Nat → Nat) (cfg : FragConfig) (fuel : Nat)
    (data : List Nat) : Option (List (List Nat)) :=
  if cfg.enabled = false then some [data]
  else fragmentGo rnd cfg.minSize cfg.maxSize data 0 0 (fuel + 1)

theorem chunkSizeAt_lower (rnd : Nat → Nat) (minS maxS i : Nat) :
    minS ≤ chunkSizeAt rnd minS maxS i := by
  unfold chunkSizeAt
  split <;> omega

theorem chunkSizeAt_upper (rnd : Nat → Nat) (minS maxS i : Nat)
    (h : minS ≤ maxS) : chunkSizeAt rnd minS maxS i ≤ maxS := by
  unfold chunkSizeAt
  split
  · have : rnd i % (maxS - minS) < maxS - minS := Nat.mod_lt _ (by omega)
    omega
  · omega

theorem fragmentGo_join (rnd : Nat → Nat) (minS maxS : Nat) (data : List Nat) :
    ∀ fuel offset i cs, fragmentGo rnd minS maxS data offset i fuel = some cs →
      cs.flatten = data.drop offset := by
  intro fuel
  induction fuel with
  | zero => intro offset i cs h; simp [fragmentGo] at h
  | succ fuel ih =>
    intro offset i cs h
    unfold fragmentGo at h
    by_cases hlt : offset < data.length
    · simp only [hlt, if_true] at h
      set stop := min (offset + chunkSizeAt rnd minS maxS i) data.length with hstop
      cases hrec : fragmentGo rnd minS maxS data stop (i + 1) fuel with
      | none => rw [hrec] at h; simp at h
      | some rest =>
        rw [hrec] at h
        simp only [Option.some.injEq] at h
        subst h
        have hjoin := ih stop (i + 1) rest hrec
        have hoff : offset ≤ stop := by omega
        simp only [List.flatten_cons, hjoin]
        have h1 : (data.drop offset).take (stop - offset) ++
            (data.drop offset).drop (stop - offset) = data.drop offset :=
          List.take_append_drop _ _
        rw [List.drop_drop] at h1
        have h2 : offset + (stop - offset) = stop := by omega
        rw [h2] at h1
        exact h1
    · simp only [hlt, if_false] at h
      simp only [Option.some.injEq] at h
      subst h
      simp [List.drop_eq_nil_of_le (by omega : data.length ≤ offset)]

theorem fragmentGo_nil_of_ge (rnd : Nat → Nat) (minS maxS : Nat)
    (data : List Nat) (fuel offset i : Nat) (cs : List (List Nat))
    (h : fragmentGo rnd minS maxS data offset i fuel = some cs)
    (hge : data.length ≤ offset) : cs = [] := by
  cases fuel with
  | zero => simp [fragmentGo] at h
  | succ fuel =>
    unfold fragmentGo at h
    have hnlt : ¬ offset < data.length := by omega
    simp only [hnlt, if_false, Option.some.injEq] at h
    exact h.symm

theorem fragmentGo_sizes (rnd : Nat → Nat) (minS maxS : Nat)
    (data : List Nat) (hmm : minS ≤ maxS) :
    ∀ fuel offset i cs, fragmentGo rnd minS maxS data offset i fuel = some cs →
      ∀ c ∈ cs.dropLast, minS ≤ c.length ∧ c.length ≤ maxS := by
  intro fuel
  induction fuel with
  | zero => intro offset i cs h; simp [fragmentGo] at h
  | succ fuel ih =>
    intro offset i cs h
    unfold fragmentGo at h
    by_cases hlt : offset < data.length
    · simp only [hlt, if_true] at h
      set size := chunkSizeAt rnd minS maxS i with hsize
      set stop := min (offset + size) data.length with hstop
      cases hrec : fragmentGo rnd minS maxS data stop (i + 1) fuel with
      | none => rw [hrec] at h; simp at h
      | some rest =>
        rw [hrec] at h
        simp only [Option.some.injEq] at h
        subst h
        cases hrest : rest with
        | nil => simp
        | cons r rs =>
          rw [← hrest]
          have hne : rest ≠ [] := by rw [hrest]; simp
          rw [List.dropLast_cons_of_ne_nil hne]
          intro c hc
          rcases List.mem_cons.mp hc with hc | hc
          · subst hc
            have hstoplt : stop < data.length := by
              by_contra hcon
              have := fragmentGo_nil_of_ge rnd minS maxS data fuel stop (i + 1)
                rest hrec (by omega)
              exact hne this
            have hfull : stop = offset + size := by omega
            have hlen : ((data.drop offset).take (stop - offset)).length
                = stop - offset := by
              rw [List.length_take, List.length_drop]
              omega
            rw [hlen, hfull]
            have h1 := chunkSizeAt_lower rnd minS maxS i
            have h2 := chunkSizeAt_upper rnd minS maxS i hmm
            constructor <;> omega
          · exact ih stop (i + 1) rest hrec c hc
    · simp only [hlt, if_false, Option.some.injEq] at h
      subst h
      simp

theorem fragmentGo_total (rnd : Nat → Nat) (minS maxS : Nat)
    (data : List Nat) (hpos : 1 ≤ minS) :
    ∀ fuel offset i, data.length ≤ offset + fuel →
      ∃ cs, fragmentGo rnd minS maxS data offset i (fuel + 1) = some cs := by
  intro fuel
  induction fuel with
  | zero =>
    intro offset i hle
    have hnlt : ¬ offset < data.length := by omega
    exact ⟨[], by unfold fragmentGo; simp [hnlt]⟩
  | succ fuel ih =>
    intro offset i hle
    unfold fragmentGo
    by_cases hlt : offset < data.length
    · simp only [hlt, if_true]
      set size := chunkSizeAt rnd minS maxS i with hsize
      set stop := min (offset + size) data.length with hstop
      have h1 := chunkSizeAt_lower rnd minS maxS i
      have : data.length ≤ stop + fuel := by omega
      obtain ⟨cs, hcs⟩ := ih stop (i + 1) this
      exact ⟨_, by rw [hcs]⟩
    · simp [hlt]

/-- C1: for every input buffer (including length 0 and lengths smaller than
`minSize`) and every bounds pair `minSize ≤ maxSize`, the chunk sequence
returned by `fragmentData`, concatenated in order, is byte-identical to the
input buffer, and every chunk except possibly the last has size in
`[minSize, maxSize]`.  The fuel is arbitrary: any terminating run of the
source loop is `some cs` for a suitable fuel. -/
theorem fragmentData_concat_and_sizes (rnd : Nat → Nat) (cfg : FragConfig)
    (fuel : Nat) (data : List Nat) (cs : List (List Nat))
    (hmm : cfg.minSize ≤ cfg.maxSize)
    (h : fragmentData rnd cfg fuel data = some cs) :
    cs.flatten = data ∧
      ∀ c ∈ cs.dropLast, cfg.minSize ≤ c.length ∧ c.length ≤ cfg.maxSize := by
  unfold fragmentData at h
  by_cases hen : cfg.enabled = false
  · simp only [hen, if_true, Option.some.injEq] at h
    subst h
    exact ⟨by simp, by simp⟩
  · simp only [hen, if_false] at h
    refine ⟨?_, fragmentGo_sizes rnd cfg.minSize cfg.maxSize data hmm _ 0 0 cs h⟩
    have := fragmentGo_join rnd cfg.minSize cfg.maxSize data (fuel + 1) 0 0 cs h
    simpa using this

/-- C1 witness: a concrete run with bounds `[2, 3]` on a 5-byte buffer,
chunking as `[[1,2],[3,4],[5]]`. -/
theorem fragmentData_concat_and_sizes_witness :
    ([[1, 2], [3, 4], [5]] : List (List Nat)).flatten = [1, 2, 3, 4, 5] ∧
      ∀ c ∈ ([[1, 2], [3, 4], [5]] : List (List Nat)).dropLast,
        (⟨true, 2, 3⟩ : FragConfig).minSize ≤ c.length ∧
          c.length ≤ (⟨true, 2, 3⟩ : FragConfig).maxSize :=
  fragmentData_concat_and_sizes (fun _ => 0) ⟨true, 2, 3⟩ 5 [1, 2, 3, 4, 5]
    [[1, 2], [3, 4], [5]] (by decide) (by decide)

/-! ## Header objects

JavaScript header objects are embedded as finite maps
`String → Option String`; property assignment and `delete` become `hset`
and `hdel`.  The level-3 branch of `obfuscateRequest` rebuilds the object
in a shuffled key order; a function map carries no key order, which is
fine because no claim observes emission order. -/

def HeaderMap : Type := String → Option String

def hset (m : HeaderMap) (k v : String) : HeaderMap :=
  fun h => if h = k then some v else m h

def hdel (m : HeaderMap) (k : String) : HeaderMap :=
  fun h => if h = k then none else m h

def hsets (m : HeaderMap) (kvs : List (String × String)) : HeaderMap :=
  kvs.foldl (fun acc kv => hset acc kv.1 kv.2) m

def emptyHeaders : HeaderMap := fun _ => none

/-- The list deleted from the forwarded request headers in the request
handlers (part_000 line 160, part_006 line 882). -/
def proxyHeaderDenyList : List String :=
  ["x-forwarded-for", "x-real-ip", "via", "forwarded", "proxy-connection"]

def stripProxyHeaders (m : HeaderMap) : HeaderMap :=
  proxyHeaderDenyList.foldl (fun acc k => hdel acc k) m

theorem hset_apply (m : HeaderMap) (k v h : String) :
    hset m k v h = if h = k then some v else m h := rfl

theorem hdel_apply (m : HeaderMap) (k h : String) :
    hdel m k h = if h = k then none else m h := rfl

theorem hsets_apply_of_forall_ne (h : String) :
    ∀ (kvs : List (String × String)) (m : HeaderMap),
      (∀ kv ∈ kvs, h ≠ kv.1) → hsets m kvs h = m h := by
  intro kvs
  induction kvs with
  | nil => intro m _; rfl
  | cons kv rest ih =>
    intro m hne
    have h1 : h ≠ kv.1 := hne kv (by simp)
    have h2 : ∀ kv2 ∈ rest, h ≠ kv2.1 := fun kv2 hm => hne kv2 (by simp [hm])
    simp only [hsets, List.foldl_cons]
    rw [show (rest.foldl (fun acc kv => hset acc kv.1 kv.2)
        (hset m kv.1 kv.2)) = hsets (hset m kv.1 kv.2) rest from rfl]
    rw [ih (hset m kv.1 kv.2) h2, hset_apply, if_neg h1]

/-- `element[Math.floor(Math.random() * list.length)]` and the
`sort(() => Math.random() - 0.5)[0]` idiom: an element of the list chosen
by an injected index. -/
def pickOne (l : List String) (i : Nat) : String := l.getD (i % l.length) ""

/-- One injected random source for `obfuscateRequest` and
`getRandomUserAgent` (part_006). -/
structure ObfRand where
  requestId : String
  langIdx : Nat
  platIdx : Nat
  destIdx : Nat
  modeIdx : Nat
  siteIdx : Nat
  dntIdx : Nat
  uaIdx : Nat
  coin : Nat → Bool
  xffOct : Nat → Nat
  xripOct : Nat → Nat

/-- The User-Agent catalog of part_006 `getRandomUserAgent`. -/
def userAgents06 : List String :=
  ["Mozilla/5.0 (Windows NT 10.0; Win64; x64) AppleWebKit/537.36 (KHTML, like Gecko) Chrome/112.0.0.0 Safari/537.36",
   "Mozilla/5.0 (Windows NT 10.0; Win64; x64) AppleWebKit/537.36 (KHTML, like Gecko) Chrome/113.0.0.0 Safari/537.36",
   "Mozilla/5.0 (Macintosh; Intel Mac OS X 10_15_7) AppleWebKit/537.36 (KHTML, like Gecko) Chrome/112.0.0.0 Safari/537.36",
   "Mozilla/5.0 (Macintosh; Intel Mac OS X 10_15_7) AppleWebKit/537.36 (KHTML, like Gecko) Chrome/113.0.0.0 Safari/537.36",
   "Mozilla/5.0 (Windows NT 10.0; Win64; x64; rv:109.0) Gecko/20100101 Firefox/112.0",
   "Mozilla/5.0 (Windows NT 10.0; Win64; x64; rv:109.0) Gecko/20100101 Firefox/113.0",
   "Mozilla/5.0 (Macintosh; Intel Mac OS X 10.15; rv:109.0) Gecko/20100101 Firefox/112.0",
   "Mozilla/5.0 (Macintosh; Intel Mac OS X 10.15; rv:109.0) Gecko/20100101 Firefox/113.0",
   "Mozilla/5.0 (Macintosh; Intel Mac OS X 10_15_7) AppleWebKit/605.1.15 (KHTML, like Gecko) Version/16.4 Safari/605.1.15",
   "Mozilla/5.0 (Macintosh; Intel Mac OS X 10_15_7) AppleWebKit/605.1.15 (KHTML, like Gecko) Version/16.5 Safari/605.1.15",
   "Mozilla/5.0 (Windows NT 10.0; Win64; x64) AppleWebKit/537.36 (KHTML, like Gecko) Chrome/112.0.0.0 Safari/537.36 Edg/112.0.1722.58",
   "Mozilla/5.0 (Windows NT 10.0; Win64; x64) AppleWebKit/537.36 (KHTML, like Gecko) Chrome/113.0.0.0 Safari/537.36 Edg/113.0.1774.35"]

def getRandomUserAgent (idx : Nat) : String := pickOne userAgents06 idx

/-- A random dotted-quad string built from four octet draws, as in
`${Math.floor(Math.random()*256)}.${...}.${...}.${...}`. -/
def ipStr (oct : Nat → Nat) : String :=
  toString (oct 0 % 256) ++ "." ++ toString (oct 1 % 256) ++ "." ++
    toString (oct 2 % 256) ++ "." ++ toString (oct 3 % 256)

/-- `possibleHeaders` of the level-3 branch of part_006
`obfuscateRequest` (lines 454-462), in source order. -/
def possibleDecoyHeaders (r : ObfRand) : List (String × String) :=
  [("x-forwarded-for", ipStr r.xffOct),
   ("x-real-ip", ipStr r.xripOct),
   ("x-forwarded-proto", "https"),
   ("x-requested-with", "XMLHttpRequest"),
   ("dnt", pickOne ["0", "1"] r.dntIdx),
   ("upgrade-insecure-requests", "1"),
   ("te", "trailers")]

/-- The `Object.keys(possibleHeaders).forEach` loop: each decoy header is
included iff its `Math.random() > 0.3` coin (injected as `coin i`) is true. -/
def addDecoys (coin : Nat → Bool) : Nat → List (String × String) → HeaderMap → HeaderMap
  | _, [], m => m
  | i, kv :: rest, m =>
    addDecoys coin (i + 1) rest (if coin i then hset m kv.1 kv.2 else m)

theorem addDecoys_apply_of_forall_ne (coin : Nat → Bool) (h : String) :
    ∀ (kvs : List (String × String)) (i : Nat) (m : HeaderMap),
      (∀ kv ∈ kvs, h ≠ kv.1) → addDecoys coin i kvs m h = m h := by
  intro kvs
  induction kvs with
  | nil => intro i m _; rfl
  | cons kv rest ih =>
    intro i m hne
    have h1 : h ≠ kv.1 := hne kv (by simp)
    have h2 : ∀ kv2 ∈ rest, h ≠ kv2.1 := fun kv2 hm => hne kv2 (by simp [hm])
    simp only [addDecoys]
    rw [ih (i + 1) _ h2]
    by_cases hc : coin i
    · simp [hc, hset_apply, if_neg h1]
    · simp [hc]

/-- The two headers set unconditionally when obfuscation is enabled
(part_006 lines 430-431). -/
def baseObfHeaders (r : ObfRand) : List (String × String) :=
  [("x-request-id", r.requestId),
   ("cache-control", "no-cache, no-store, must-revalidate")]

/-- The browser-imitation headers of the level-2 branch (part_006 lines
439-448), in source order. -/
def level2Headers (r : ObfRand) : List (String × String) :=
  [("accept", "text/html,application/xhtml+xml,application/xml;q=0.9,image/avif,image/webp,image/apng,*/*;q=0.8,application/signed-exchange;v=b3;q=0.7"),
   ("accept-encoding", "gzip, deflate, br"),
   ("accept-language", pickOne ["en-US,en;q=0.9", "en-GB,en;q=0.8,fr;q=0.6", "en-US,en;q=0.9,es;q=0.8,de;q=0.7"] r.langIdx),
   ("sec-ch-ua", "\x22Not/A)Brand\x22;v=\x2299\x22, \x22Google Chrome\x22;v=\x22115\x22, \x22Chromium\x22;v=\x22115\x22"),
   ("sec-ch-ua-mobile", "?0"),
   ("sec-ch-ua-platform", pickOne ["Windows", "macOS", "Linux"] r.platIdx),
   ("sec-fetch-dest", pickOne ["document", "image", "style", "script"] r.destIdx),
   ("sec-fetch-mode", pickOne ["navigate", "cors", "no-cors"] r.modeIdx),
   ("sec-fetch-site", pickOne ["none", "same-origin", "same-site", "cross-site"] r.siteIdx),
   ("sec-fetch-user", "?1")]

/-- `obfuscateRequest(req, headers)` from part_006 lines 422-482.  The
level-3 key-order shuffle is the identity on a function map. -/
def obfuscateRequest (enableObfuscation : Bool) (obfuscationLevel : Nat)
    (r : ObfRand) (headers : HeaderMap) : HeaderMap :=
  if enableObfuscation = false then headers
  else
    let m1 := hsets headers (baseObfHeaders r)
    let m2 := if 2 ≤ obfuscationLevel then hsets m1 (level2Headers r) else m1
    if 3 ≤ obfuscationLevel then addDecoys r.coin 0 (possibleDecoyHeaders r) m2
    else m2

/-- `obfuscateRequest` does not touch a header name that is none of the
names it writes (the level-3 names only matter when level ≥ 3). -/
theorem obfuscateRequest_apply_untouched (enable : Bool) (level : Nat)
    (r : ObfRand) (m : HeaderMap) (h : String)
    (hb : ∀ kv ∈ baseObfHeaders r, h ≠ kv.1)
    (h2 : ∀ kv ∈ level2Headers r, h ≠ kv.1)
    (h3 : 3 ≤ level → ∀ kv ∈ possibleDecoyHeaders r, h ≠ kv.1) :
    obfuscateRequest enable level r m h = m h := by
  cases enable with
  | false => rfl
  | true =>
    unfold obfuscateRequest
    rw [if_neg (by decide : ¬ ((true : Bool) = false))]
    by_cases hl3 : 3 ≤ level
    · rw [if_pos hl3]
      rw [addDecoys_apply_of_forall_ne r.coin h (possibleDecoyHeaders r) 0 _ (h3 hl3)]
      by_cases hl2 : 2 ≤ level
      · rw [if_pos hl2]
        rw [hsets_apply_of_forall_ne h _ _ h2, hsets_apply_of_forall_ne h _ _ hb]
      · rw [if_neg hl2]
        rw [hsets_apply_of_forall_ne h _ _ hb]
    · rw [if_neg hl3]
      by_cases hl2 : 2 ≤ level
      · rw [if_pos hl2]
        rw [hsets_apply_of_forall_ne h _ _ h2, hsets_apply_of_forall_ne h _ _ hb]
      · rw [if_neg hl2]
        rw [hsets_apply_of_forall_ne h _ _ hb]

/-! ## Domain fronting (`getFrontingDomain`, part_006 lines 320-335)

The rule test is
`hostname.match(new RegExp(pattern.replace(/\*/g, '.*')))`: every `*`
becomes `.*`, every `.` keeps its regex meaning of "any one character",
and `match` searches for the pattern anywhere in the hostname
(unanchored).  The token language below covers exactly the regexes this
conversion can produce. -/

inductive RTok where
  | lit (c : Char)
  | anyc
  | anyStar
  | litStar (c : Char)

/-- `pattern.replace(/\*/g, '.*')` on the character list. -/
def globToRegexChars (pattern : String) : List Char :=
  pattern.toList.flatMap (fun c => if c = '*' then ['.', '*'] else [c])

/-- Tokenize a regex character list: `.*` is "any sequence", a lone `.`
is "any one character", `c*` is "any run of `c`", anything else is a
literal. -/
def toToks : List Char → List RTok
  | [] => []
  | '.' :: '*' :: rest => RTok.anyStar :: toToks rest
  | '.' :: rest => RTok.anyc :: toToks rest
  | c :: '*' :: rest => RTok.litStar c :: toToks rest
  | c :: rest => RTok.lit c :: toToks rest

/-- Anchored regex acceptance for the token language, by structural
recursion on an explicit depth bound.  Every recursive call strictly
decreases `ps.length + s.length`, so depth `ps.length + s.length + 1`
is always sufficient and the `0` case is never reached from
`rxAccept`. -/
def rxAcceptF : Nat → List RTok → List Char → Bool
  | 0, _, _ => false
  | _ + 1, [], s => s.isEmpty
  | _ + 1, RTok.lit _ :: _, [] => false
  | fuel + 1, RTok.lit c :: ps, x :: xs => x = c && rxAcceptF fuel ps xs
  | _ + 1, RTok.anyc :: _, [] => false
  | fuel + 1, RTok.anyc :: ps, _ :: xs => rxAcceptF fuel ps xs
  | fuel + 1, RTok.anyStar :: ps, s =>
    rxAcceptF fuel ps s ||
      (match s with
       | [] => false
       | _ :: xs => rxAcceptF fuel (RTok.anyStar :: ps) xs)
  | fuel + 1, RTok.litStar c :: ps, s =>
    rxAcceptF fuel ps s ||
      (match s with
       | [] => false
       | x :: xs => x = c && rxAcceptF fuel (RTok.litStar c :: ps) xs)

def rxAccept (ps : List RTok) (s : List Char) : Bool :=
  rxAcceptF (ps.length + s.length + 1) ps s

/-- `input.match(regex)` is truthy iff the regex matches some substring,
i.e. iff `.*` ++ regex ++ `.*` accepts the whole input. -/
def jsRegexTest (pattern input : String) : Bool :=
  rxAccept (RTok.anyStar :: (toToks (globToRegexChars pattern) ++ [RTok.anyStar]))
    input.toList

structure FrontingConfig where
  enabled : Bool
  fronts : List (String × String)
  defaultFronts : List String

/-- `config.domainFronting` of part_006 (lines 67-95). -/
def config06fronting : FrontingConfig :=
  { enabled := true
    fronts :=
      [("*.wikipedia.org", "ajax.googleapis.com"),
       ("*.blogspot.com", "fonts.googleapis.com"),
       ("*.medium.com", "cdnjs.cloudflare.com"),
       ("*.facebook.com", "cdn.jsdelivr.net"),
       ("*.telegram.org", "code.jquery.com"),
       ("*.youtube.com", "static.cloudflareinsights.com"),
       ("*.pornhub.com", "unpkg.com"),
       ("*.xvideos.com", "stackpath.bootstrapcdn.com"),
       ("*.twitter.com", "ajax.aspnetcdn.com")]
    defaultFronts :=
      ["ajax.googleapis.com", "cdn.jsdelivr.net", "cdnjs.cloudflare.com",
       "static.cloudflareinsights.com", "fonts.googleapis.com",
       "code.jquery.com", "unpkg.com", "stackpath.bootstrapcdn.com",
       "ajax.aspnetcdn.com", "cdn.statically.io",
       "d36mpcpuzc4ztk.cloudfront.net"] }

/-- `getFrontingDomain(hostname)` from part_006 lines 320-335.  `rIdx` is
the injected draw for the random default pick. -/
def getFrontingDomain (cfg : FrontingConfig) (rIdx : Nat) (hostname : String) : String :=
  if cfg.enabled = false then hostname
  else
    match cfg.fronts.find? (fun pr => jsRegexTest pr.1 hostname) with
    | some pr => pr.2
    | none => cfg.defaultFronts.getD (rIdx % cfg.defaultFronts.length) ""

structure SniConfig where
  enabled : Bool
  commonNames : List String

/-- `config.sni` of part_006 (lines 97-111). -/
def config06sni : SniConfig :=
  { enabled := true
    commonNames :=
      ["www.microsoft.com", "www.google.com", "www.apple.com",
       "www.cloudflare.com", "www.akamai.com", "www.amazon.com",
       "www.office.com", "d36mpcpuzc4ztk.cloudfront.net", "s3.amazonaws.com"] }

/-- `getSNI(hostname)` from part_006 lines 338-352: run the argument
through domain fronting again; if that changed it, use the re-fronted
value, otherwise use a random common name. -/
def getSNI (sniCfg : SniConfig) (frontCfg : FrontingConfig)
    (rFront rName : Nat) (hostname : String) : String :=
  if sniCfg.enabled = false then hostname
  else
    let frontDomain := getFrontingDomain frontCfg rFront hostname
    if frontDomain ≠ hostname then frontDomain
    else pickOne sniCfg.commonNames rName

/-- Modelled from the spec (section 4.2): glob-style wildcard matching,
anchored at both ends, where `*` matches any character sequence and every
other character only itself.  Used solely to compare the code's rule
matching against the spec's words. -/
def globAcceptF : Nat → List Char → List Char → Bool
  | 0, _, _ => false
  | _ + 1, [], s => s.isEmpty
  | fuel + 1, '*' :: ps, s =>
    globAcceptF fuel ps s ||
      (match s with
       | [] => false
       | _ :: xs => globAcceptF fuel ('*' :: ps) xs)
  | _ + 1, _ :: _, [] => false
  | fuel + 1, c :: ps, x :: xs => x = c && globAcceptF fuel ps xs

def globAccept (ps s : List Char) : Bool :=
  globAcceptF (ps.length + s.length + 1) ps s

/-- Modelled from the spec: the first rule whose glob pattern matches the
hostname. -/
def specFirstGlobRule (fronts : List (String × String)) (hostname : String) :
    Option (String × String) :=
  fronts.find? (fun pr => globAccept pr.1.toList hostname.toList)

/-! ## Plain HTTP relay request assembly (part_006 `server.on('request')`,
lines 840-1000)

The handler strips the proxy deny-list from the incoming headers, sets
`host`, optionally rotates `user-agent`, applies `obfuscateRequest`, and
for HTTPS targets assigns `servername := getSNI(frontDomain || hostname)`
and re-sets `host` on the (shared) obfuscated header object.  Plain HTTP
targets get no `servername` (embedded as `none`). -/

structure OutboundReq where
  headers : HeaderMap
  servername : Option String

/-- The outbound request assembled by the part_006 request handler:
headers and SNI servername.  `rf1` is the draw of the handler's own
`getFrontingDomain` call, `rf2`/`rs` the draws inside `getSNI`. -/
def relayOutbound (frontCfg : FrontingConfig) (sniCfg : SniConfig)
    (enableObfuscation rotateUserAgent : Bool) (obfuscationLevel : Nat)
    (r : ObfRand) (rf1 rf2 rs : Nat) (reqHeaders : HeaderMap)
    (parsedHost parsedHostname : String) (isHttps : Bool) : OutboundReq :=
  let headers := stripProxyHeaders reqHeaders
  let headers := hset headers "host" parsedHost
  let headers :=
    if rotateUserAgent then hset headers "user-agent" (getRandomUserAgent r.uaIdx)
    else headers
  let obf := obfuscateRequest enableObfuscation obfuscationLevel r headers
  let frontDomain := getFrontingDomain frontCfg rf1 parsedHostname
  if isHttps then
    let sni := getSNI sniCfg frontCfg rf2 rs
      (if frontDomain = "" then parsedHostname else frontDomain)
    { headers := hset obf "host" parsedHost, servername := some sni }
  else
    { headers := obf, servername := none }

theorem stripProxyHeaders_deny (m : HeaderMap) (k : String)
    (hk : k ∈ proxyHeaderDenyList) : stripProxyHeaders m k = none := by
  simp only [proxyHeaderDenyList, List.mem_cons, List.not_mem_nil, or_false] at hk
  rcases hk with rfl | rfl | rfl | rfl | rfl <;> rfl

/-- Lookup of a deny-listed name in the assembled outbound headers, when
that name is untouched by every header the pipeline writes. -/
theorem relayOutbound_apply_stripped (frontCfg : FrontingConfig)
    (sniCfg : SniConfig) (enable rot : Bool) (level : Nat) (r : ObfRand)
    (rf1 rf2 rs : Nat) (hdrs : HeaderMap) (ph hn : String) (https : Bool)
    (k : String) (hk : k ∈ proxyHeaderDenyList)
    (hhost : k ≠ "host") (hua : k ≠ "user-agent")
    (hb : ∀ kv ∈ baseObfHeaders r, k ≠ kv.1)
    (h2 : ∀ kv ∈ level2Headers r, k ≠ kv.1)
    (h3 : 3 ≤ level → ∀ kv ∈ possibleDecoyHeaders r, k ≠ kv.1) :
    (relayOutbound frontCfg sniCfg enable rot level r rf1 rf2 rs hdrs
      ph hn https).headers k = none := by
  have hobf : ∀ m : HeaderMap, obfuscateRequest enable level r m k = m k :=
    fun m => obfuscateRequest_apply_untouched enable level r m k hb h2 h3
  have hbase :
      obfuscateRequest enable level r
        (if rot then
          hset (hset (stripProxyHeaders hdrs) "host" ph) "user-agent"
            (getRandomUserAgent r.uaIdx)
         else hset (stripProxyHeaders hdrs) "host" ph) k = none := by
    rw [hobf]
    by_cases hrot : rot
    · rw [if_pos hrot, hset_apply, if_neg hua, hset_apply, if_neg hhost]
      exact stripProxyHeaders_deny hdrs k hk
    · rw [if_neg hrot, hset_apply, if_neg hhost]
      exact stripProxyHeaders_deny hdrs k hk
  cases https with
  | false => exact hbase
  | true =>
    show hset _ "host" ph k = none
    rw [hset_apply, if_neg hhost]
    exact hbase

theorem ne_keys_baseObf (r : ObfRand) {k : String}
    (h : k ∉ ["x-request-id", "cache-control"]) :
    ∀ kv ∈ baseObfHeaders r, k ≠ kv.1 := by
  intro kv hkv
  simp only [baseObfHeaders, List.mem_cons, List.not_mem_nil, or_false] at hkv
  simp only [List.mem_cons, List.not_mem_nil, or_false, not_or] at h
  rcases hkv with rfl | rfl
  · exact h.1
  · exact h.2

theorem ne_keys_level2 (r : ObfRand) {k : String}
    (h : k ∉ ["accept", "accept-encoding", "accept-language", "sec-ch-ua",
      "sec-ch-ua-mobile", "sec-ch-ua-platform", "sec-fetch-dest",
      "sec-fetch-mode", "sec-fetch-site", "sec-fetch-user"]) :
    ∀ kv ∈ level2Headers r, k ≠ kv.1 := by
  intro kv hkv
  simp only [level2Headers, List.mem_cons, List.not_mem_nil, or_false] at hkv
  simp only [List.mem_cons, List.not_mem_nil, or_false, not_or] at h
  obtain ⟨h1, h2, h3, h4, h5, h6, h7, h8, h9, h10⟩ := h
  rcases hkv with rfl | rfl | rfl | rfl | rfl | rfl | rfl | rfl | rfl | rfl <;>
    assumption

theorem ne_keys_decoys (r : ObfRand) {k : String}
    (h : k ∉ ["x-forwarded-for", "x-real-ip", "x-forwarded-proto",
      "x-requested-with", "dnt", "upgrade-insecure-requests", "te"]) :
    ∀ kv ∈ possibleDecoyHeaders r, k ≠ kv.1 := by
  intro kv hkv
  simp only [possibleDecoyHeaders, List.mem_cons, List.not_mem_nil,
    or_false] at hkv
  simp only [List.mem_cons, List.not_mem_nil, or_false, not_or] at h
  obtain ⟨h1, h2, h3, h4, h5, h6, h7⟩ := h
  rcases hkv with rfl | rfl | rfl | rfl | rfl | rfl | rfl <;> assumption

/-- C2 amended: the outbound header map never contains `via`,
`forwarded` or `proxy-connection`, and the incoming request's
`x-forwarded-for` / `x-real-ip` are always stripped; but at obfuscation
level ≥ 3 the obfuscator may inject fresh random decoy `x-forwarded-for`
/ `x-real-ip` values, so at levels ≤ 2 (and only there) those two names
are also guaranteed absent. -/
theorem relayOutbound_denylist (frontCfg : FrontingConfig)
    (sniCfg : SniConfig) (enable rot : Bool) (level : Nat) (r : ObfRand)
    (rf1 rf2 rs : Nat) (hdrs : HeaderMap) (ph hn : String) (https : Bool) :
    ((relayOutbound frontCfg sniCfg enable rot level r rf1 rf2 rs hdrs
        ph hn https).headers "via" = none ∧
      (relayOutbound frontCfg sniCfg enable rot level r rf1 rf2 rs hdrs
        ph hn https).headers "forwarded" = none ∧
      (relayOutbound frontCfg sniCfg enable rot level r rf1 rf2 rs hdrs
        ph hn https).headers "proxy-connection" = none) ∧
    (level ≤ 2 →
      (relayOutbound frontCfg sniCfg enable rot level r rf1 rf2 rs hdrs
        ph hn https).headers "x-forwarded-for" = none ∧
      (relayOutbound frontCfg sniCfg enable rot level r rf1 rf2 rs hdrs
        ph hn https).headers "x-real-ip" = none) := by
  refine ⟨⟨?_, ?_, ?_⟩, fun hlev => ⟨?_, ?_⟩⟩
  · exact relayOutbound_apply_stripped frontCfg sniCfg enable rot level r
      rf1 rf2 rs hdrs ph hn https "via" (by decide) (by decide) (by decide)
      (ne_keys_baseObf r (by decide)) (ne_keys_level2 r (by decide))
      (fun _ => ne_keys_decoys r (by decide))
  · exact relayOutbound_apply_stripped frontCfg sniCfg enable rot level r
      rf1 rf2 rs hdrs ph hn https "forwarded" (by decide) (by decide)
      (by decide) (ne_keys_baseObf r (by decide)) (ne_keys_level2 r (by decide))
      (fun _ => ne_keys_decoys r (by decide))
  · exact relayOutbound_apply_stripped frontCfg sniCfg enable rot level r
      rf1 rf2 rs hdrs ph hn https "proxy-connection" (by decide) (by decide)
      (by decide) (ne_keys_baseObf r (by decide)) (ne_keys_level2 r (by decide))
      (fun _ => ne_keys_decoys r (by decide))
  · exact relayOutbound_apply_stripped frontCfg sniCfg enable rot level r
      rf1 rf2 rs hdrs ph hn https "x-forwarded-for" (by decide) (by decide)
      (by decide) (ne_keys_baseObf r (by decide)) (ne_keys_level2 r (by decide))
      (fun hl3 => absurd hl3 (by omega))
  · exact relayOutbound_apply_stripped frontCfg sniCfg enable rot level r
      rf1 rf2 rs hdrs ph hn https "x-real-ip" (by decide) (by decide)
      (by decide) (ne_keys_baseObf r (by decide)) (ne_keys_level2 r (by decide))
      (fun hl3 => absurd hl3 (by omega))

/-- A concrete random source: every decoy coin lands on "include", every
octet draw is 7. -/
def cexObfRand : ObfRand :=
  { requestId := "00112233445566778899aabbccddeeff"
    langIdx := 0, platIdx := 0, destIdx := 0, modeIdx := 0, siteIdx := 0
    dntIdx := 0, uaIdx := 0
    coin := fun _ => true
    xffOct := fun _ => 7
    xripOct := fun _ => 7 }

/-- C2 counterexample: at the configured obfuscation level 3 the outbound
header map of a request whose incoming headers are empty contains the
deny-listed `x-forwarded-for` header (a freshly generated decoy value),
so `obfuscateRequest` does emit a deny-list header at level 3. -/
theorem relayOutbound_emits_xff :
    (relayOutbound config06fronting config06sni true true 3 cexObfRand 0 0 0
      emptyHeaders "h.example" "h.example" false).headers "x-forwarded-for"
      = some "7.7.7.7" := by decide

/-- C2 witness: the amended theorem applied at obfuscation level 2. -/
theorem relayOutbound_denylist_witness :
    (relayOutbound config06fronting config06sni true true 2 cexObfRand 0 0 0
        emptyHeaders "h.example" "h.example" false).headers "x-forwarded-for"
      = none ∧
    (relayOutbound config06fronting config06sni true true 2 cexObfRand 0 0 0
        emptyHeaders "h.example" "h.example" false).headers "via" = none :=
  ⟨((relayOutbound_denylist config06fronting config06sni true true 2 cexObfRand
      0 0 0 emptyHeaders "h.example" "h.example" false).2 (by decide)).1,
   (relayOutbound_denylist config06fronting config06sni true true 2 cexObfRand
      0 0 0 emptyHeaders "h.example" "h.example" false).1.1⟩

/-- C5 counterexample: the hostname `en.wikipedia.org.blogspot.com`
glob-matches only the rule `*.blogspot.com` (first glob match, cover
`fonts.googleapis.com`), but the code's unanchored wildcard-dot regex
lets the earlier rule `*.wikipedia.org` match a substring, so
`getFrontingDomain` returns `ajax.googleapis.com` — not the cover of the
first glob-matching rule. -/
theorem getFrontingDomain_not_first_glob :
    getFrontingDomain config06fronting 0 "en.wikipedia.org.blogspot.com"
        = "ajax.googleapis.com" ∧
      specFirstGlobRule config06fronting.fronts "en.wikipedia.org.blogspot.com"
        = some ("*.blogspot.com", "fonts.googleapis.com") ∧
      getFrontingDomain config06fronting 0 "en.wikipedia.org.blogspot.com"
        ≠ "fonts.googleapis.com" := by decide

/-- C5 amended: `getFrontingDomain` walks the rule list in order, but a
rule matches when its pattern — with `*` replaced by `.*` and `.` read as
"any character" — matches any substring of the hostname; the first rule
matching in that sense wins deterministically.  If no rule matches in
that sense, a member of the default front pool is returned, and with
fronting disabled the hostname is returned unchanged. -/
theorem getFrontingDomain_spec :
    (∀ (cfg : FrontingConfig) (i : Nat) (host : String),
      cfg.enabled = false → getFrontingDomain cfg i host = host) ∧
    (∀ (cfg : FrontingConfig) (i : Nat) (host : String) (pr : String × String),
      cfg.fronts.find? (fun pr => jsRegexTest pr.1 host) = some pr →
      cfg.enabled = true → getFrontingDomain cfg i host = pr.2) ∧
    (∀ (cfg : FrontingConfig) (i : Nat) (host : String),
      cfg.fronts.find? (fun pr => jsRegexTest pr.1 host) = none →
      cfg.enabled = true → cfg.defaultFronts ≠ [] →
      getFrontingDomain cfg i host ∈ cfg.defaultFronts) := by
  refine ⟨?_, ?_, ?_⟩
  · intro cfg i host hen
    simp [getFrontingDomain, hen]
  · intro cfg i host pr hfind hen
    simp [getFrontingDomain, hen, hfind]
  · intro cfg i host hfind hen hne
    simp only [getFrontingDomain, hen, Bool.true_eq_false, if_false, hfind]
    have hlen : 0 < cfg.defaultFronts.length := List.length_pos.mpr hne
    have hmod : i % cfg.defaultFronts.length < cfg.defaultFronts.length :=
      Nat.mod_lt _ hlen
    rw [List.getD_eq_getElem _ _ hmod]
    exact List.getElem_mem _

/-- C5 witness: disabled fronting is the identity; `en.wikipedia.org`
deterministically yields its rule's cover; a non-matching hostname yields
a member of the default pool. -/
theorem getFrontingDomain_spec_witness :
    getFrontingDomain ⟨false, [], []⟩ 0 "x.example" = "x.example" ∧
      getFrontingDomain config06fronting 0 "en.wikipedia.org"
        = "ajax.googleapis.com" ∧
      getFrontingDomain config06fronting 3 "example.com"
        ∈ config06fronting.defaultFronts :=
  ⟨getFrontingDomain_spec.1 ⟨false, [], []⟩ 0 "x.example" rfl,
   getFrontingDomain_spec.2.1 config06fronting 0 "en.wikipedia.org"
     ("*.wikipedia.org", "ajax.googleapis.com") (by decide) rfl,
   getFrontingDomain_spec.2.2 config06fronting 3 "example.com" (by decide)
     rfl (by decide)⟩

/-- C6 counterexample: for the fronted HTTPS relay of
`en.wikipedia.org`, the selected cover hostname is the rule's
`ajax.googleapis.com`, but the outbound SNI is `cdn.jsdelivr.net`
(because `getSNI` runs the cover through fronting a second time), so the
SNI does not equal the selected cover hostname even though the Host
header keeps the original target. -/
theorem relayOutbound_sni_not_cover :
    (relayOutbound config06fronting config06sni true true 3 cexObfRand 0 1 0
        emptyHeaders "en.wikipedia.org" "en.wikipedia.org" true).servername
      = some "cdn.jsdelivr.net" ∧
    getFrontingDomain config06fronting 0 "en.wikipedia.org"
      = "ajax.googleapis.com" ∧
    some "cdn.jsdelivr.net" ≠ some "ajax.googleapis.com" := by decide

/-- C6 amended: the outbound Host header equals the original target host
byte-for-byte; the outbound SNI is not the selected cover hostname itself
but `getSNI(cover)`: when SNI spoofing is enabled and re-running fronting
on the cover yields a different domain, that re-fronted domain becomes
the SNI. -/
theorem relayOutbound_host_and_sni (frontCfg : FrontingConfig)
    (sniCfg : SniConfig) (enable rot : Bool) (level : Nat) (r : ObfRand)
    (rf1 rf2 rs : Nat) (hdrs : HeaderMap) (ph hn cover : String)
    (hcov : getFrontingDomain frontCfg rf1 hn = cover) (hne : cover ≠ "")
    (hsni : sniCfg.enabled = true) :
    (relayOutbound frontCfg sniCfg enable rot level r rf1 rf2 rs hdrs
        ph hn true).headers "host" = some ph ∧
    (getFrontingDomain frontCfg rf2 cover ≠ cover →
      (relayOutbound frontCfg sniCfg enable rot level r rf1 rf2 rs hdrs
        ph hn true).servername
        = some (getFrontingDomain frontCfg rf2 cover)) := by
  constructor
  · show hset
      (obfuscateRequest enable level r
        (if rot then
          hset (hset (stripProxyHeaders hdrs) "host" ph) "user-agent"
            (getRandomUserAgent r.uaIdx)
         else hset (stripProxyHeaders hdrs) "host" ph))
      "host" ph "host" = some ph
    rw [hset_apply, if_pos rfl]
  · intro hdiff
    show some (getSNI sniCfg frontCfg rf2 rs
      (if getFrontingDomain frontCfg rf1 hn = "" then hn
       else getFrontingDomain frontCfg rf1 hn)) = _
    rw [hcov, if_neg hne]
    simp only [getSNI, hsni, Bool.true_eq_false, if_false]
    rw [if_pos hdiff]

/-- C6 witness: the amended theorem at the fronted request for
`en.wikipedia.org`. -/
theorem relayOutbound_host_and_sni_witness :
    (relayOutbound config06fronting config06sni true true 3 cexObfRand 0 1 0
        emptyHeaders "en.wikipedia.org" "en.wikipedia.org" true).headers "host"
      = some "en.wikipedia.org" ∧
    (relayOutbound config06fronting config06sni true true 3 cexObfRand 0 1 0
        emptyHeaders "en.wikipedia.org" "en.wikipedia.org" true).servername
      = some (getFrontingDomain config06fronting 1 "ajax.googleapis.com") :=
  ⟨(relayOutbound_host_and_sni config06fronting config06sni true true 3
      cexObfRand 0 1 0 emptyHeaders "en.wikipedia.org" "en.wikipedia.org"
      "ajax.googleapis.com" (by decide) (by decide) rfl).1,
   (relayOutbound_host_and_sni config06fronting config06sni true true 3
      cexObfRand 0 1 0 emptyHeaders "en.wikipedia.org" "en.wikipedia.org"
      "ajax.googleapis.com" (by decide) (by decide) rfl).2 (by decide)⟩

/-! ## Resolver chain (`resolveHostname`)

part_006 (lines 140-184) tries DoH, then the standard resolvers, then
DoT — each with `return await`, so every rejection reaches the outer
catch, which consults a static table before rethrowing.  part_009
(lines 68-110) tries the standard resolvers, then one DoH provider
whose promise is returned without `await`, so its rejection bypasses
the outer catch (see `resolveHostname9`).  Each strategy's outcome is
injected as an `Option String` (the address the strategy would have
produced, already including its internal random pick, since a
successful `resolve4` always yields a non-empty list); `none` embeds
the strategy's rejection. -/

/-- The `hardcodedIPs` table of part_006 lines 163-168. -/
def hardcodedIPs (h : String) : Option (List String) :=
  if h = "www.pornhub.com" then
    some ["66.254.114.41", "66.254.114.79", "205.185.208.170"]
  else if h = "www.xvideos.com" then some ["185.88.181.7", "185.88.181.2"]
  else if h = "www.facebook.com" then some ["157.240.3.35", "157.240.22.35"]
  else if h = "www.youtube.com" then some ["172.217.11.78", "172.217.11.110"]
  else none

/-- `hostname.replace(/^www\./, '')`. -/
def stripWww (h : String) : String :=
  if "www.".isPrefixOf h then h.drop 4 else h

/-- The `for (const domain of [hostname, baseDomain])` loop of the outer
catch: first table hit wins, with a random pick among its addresses. -/
def hardcodedLookup (pick : Nat) (h : String) : Option String :=
  match hardcodedIPs h with
  | some l => some (l.getD (pick % l.length) "")
  | none =>
    match hardcodedIPs (stripWww h) with
    | some l => some (l.getD (pick % l.length) "")
    | none => none

/-- `resolveHostname(hostname)` of part_006: DoH, else standard DNS, else
DoT, else the static table, else failure (`none` embeds the rethrow). -/
def resolveHostname6 (doh std dot : Option String) (pick : Nat)
    (h : String) : Option String :=
  match doh with
  | some ip => some ip
  | none =>
    match std with
    | some ip => some ip
    | none =>
      match dot with
      | some ip => some ip
      | none => hardcodedLookup pick h

/-- `resolveHostname(hostname)` of part_009 (lines 68-110): standard DNS
first; its failure is caught and the DoH request's promise is returned
*without* `await` (line 80).  A rejection of that promise is therefore
adopted directly as the async function's own rejection and never passes
through the enclosing catch; a synchronous failure inside the promise
executor (`https.get` throwing) is likewise converted by the `Promise`
constructor into a rejection of that same promise, and nothing else in
the inner catch block can throw.  The outer catch's `return hostname`
fallback (lines 105-109) is consequently unreachable: the variant
resolves with a strategy's answer or rejects (`none`). -/
def resolveHostname9 (std doh : Option String) (h : String) : Option String :=
  match std with
  | some ip => some ip
  | none => doh

/-- C3: both resolver variants fail exactly when every configured
strategy has been exhausted — part_006 after DoH, standard DNS, DoT and
the static table (for the hostname and its `www.`-stripped base),
part_009 after standard DNS and DoH, its `return hostname` fallback
being unreachable — and every successful result is an address produced
by one of the strategies (or the static table), never a silently
substituted default such as the original hostname. -/
theorem resolveHostname_fails_iff_exhausted :
    (∀ (doh std dot : Option String) (pick : Nat) (h : String),
      resolveHostname6 doh std dot pick h = none ↔
        doh = none ∧ std = none ∧ dot = none ∧
          hardcodedIPs h = none ∧ hardcodedIPs (stripWww h) = none) ∧
    (∀ (std doh : Option String) (h : String),
      resolveHostname9 std doh h = none ↔ std = none ∧ doh = none) ∧
    (∀ (doh std dot : Option String) (pick : Nat) (h ip : String),
      resolveHostname6 doh std dot pick h = some ip →
        doh = some ip ∨ std = some ip ∨ dot = some ip ∨
          hardcodedLookup pick h = some ip) ∧
    (∀ (std doh : Option String) (h ip : String),
      resolveHostname9 std doh h = some ip → std = some ip ∨ doh = some ip) := by
  refine ⟨?_, ?_, ?_, ?_⟩
  · intro doh std dot pick h
    cases doh with
    | some ip => simp [resolveHostname6]
    | none =>
      cases std with
      | some ip => simp [resolveHostname6]
      | none =>
        cases dot with
        | some ip => simp [resolveHostname6]
        | none =>
          simp only [resolveHostname6, hardcodedLookup, true_and]
          cases h1 : hardcodedIPs h with
          | some l => simp
          | none =>
            cases h2 : hardcodedIPs (stripWww h) with
            | some l => simp
            | none => simp
  · intro std doh h
    cases std with
    | some ip => simp [resolveHostname9]
    | none =>
      cases doh with
      | some ip => simp [resolveHostname9]
      | none => simp [resolveHostname9]
  · intro doh std dot pick h ip hres
    cases doh with
    | some x => exact Or.inl (by simpa [resolveHostname6] using hres)
    | none =>
      cases std with
      | some x => exact Or.inr (Or.inl (by simpa [resolveHostname6] using hres))
      | none =>
        cases dot with
        | some x =>
          exact Or.inr (Or.inr (Or.inl (by simpa [resolveHostname6] using hres)))
        | none =>
          exact Or.inr (Or.inr (Or.inr
            (by simpa [resolveHostname6] using hres)))
  · intro std doh h ip hres
    cases std with
    | some x => exact Or.inl (by simpa [resolveHostname9] using hres)
    | none => exact Or.inr (by simpa [resolveHostname9] using hres)

/-- C3 witness: the provenance clauses applied at concrete strategy
outcomes (a part_006 resolution answered by DoH, a part_009 resolution
answered by DoH). -/
theorem resolveHostname_fails_iff_exhausted_witness :
    ((some "93.184.216.34" : Option String) = some "93.184.216.34" ∨
      (none : Option String) = some "93.184.216.34" ∨
      (none : Option String) = some "93.184.216.34" ∨
      hardcodedLookup 0 "example.com" = some "93.184.216.34") ∧
    ((none : Option String) = some "1.2.3.4" ∨
      (some "1.2.3.4" : Option String) = some "1.2.3.4") :=
  ⟨resolveHostname_fails_iff_exhausted.2.2.1 (some "93.184.216.34") none none
      0 "example.com" "93.184.216.34" rfl,
   resolveHostname_fails_iff_exhausted.2.2.2 none (some "1.2.3.4")
      "h.example" "1.2.3.4" rfl⟩

/-! ## CONNECT handler (part_006 `server.on('connect')`, lines 1003-1106)

`req.url.split(':')` destructures into `targetHost` and `targetPortStr`;
`parseInt(targetPortStr) || 443` falls back to 443 when parseInt yields
`NaN` or `0`.  The handler then awaits `resolveHostname(targetHost)`;
a rejection lands in the catch, which ends the client socket with a
`502 Bad Gateway` status line; on success it dials the resolved address
and writes `200 Connection Established`.  There is no validation of the
CONNECT target before resolution. -/

/-- `parseInt` on a port string, embedded for non-negative results:
leading decimal digits, `none` when there is no digit (`NaN`). -/
def jsParseIntNat (s : String) : Option Nat :=
  let ds := (s.toList.dropWhile (fun c => c = ' ')).takeWhile Char.isDigit
  if ds.isEmpty then none
  else some (ds.foldl (fun a c => a * 10 + (c.toNat - 48)) 0)

/-- `string.split(sep)` on the character list: every occurrence of the
separator starts a new group, and the empty string splits to `[""]`. -/
def splitOnChar (sep : Char) : List Char → List (List Char)
  | [] => [[]]
  | c :: rest =>
    let r := splitOnChar sep rest
    if c = sep then [] :: r
    else
      match r with
      | [] => [[c]]
      | g :: gs => (c :: g) :: gs

/-- `url.split(':')` as strings. -/
def jsSplitColon (s : String) : List String :=
  (splitOnChar ':' s.toList).map (fun cs => String.mk cs)

/-- `startsWith` via character lists (kernel-computable). -/
def strStarts (s p : String) : Bool := p.toList.isPrefixOf s.toList

/-- `const [targetHost, targetPortStr] = req.url.split(':');
const targetPort = parseInt(targetPortStr) || 443;` -/
def connectTarget (url : String) : String × Nat :=
  let parts := jsSplitColon url
  let host := parts.getD 0 ""
  let portStr := parts.getD 1 ""
  let port :=
    match jsParseIntNat portStr with
    | none => 443
    | some 0 => 443
    | some n => n
  (host, port)

structure ConnectOutcome where
  response : Option String
  contacted : Option (String × Nat)
  established : Bool

/-- The CONNECT handler outcome, with the resolver chain injected as
`resolve`: resolution failure is answered with `502 Bad Gateway` and no
destination contact; resolution success dials `(ip, port)` and answers
`200 Connection Established`. -/
def connectHandler (resolve : String → Option String) (url : String) :
    ConnectOutcome :=
  let t := connectTarget url
  match resolve t.1 with
  | none =>
    { response := some "HTTP/1.1 502 Bad Gateway\r\n\r\n"
      contacted := none
      established := false }
  | some ip =>
    { response := some "HTTP/1.1 200 Connection Established\r\n\r\n"
      contacted := some (ip, t.2)
      established := true }

/-- Whether the response written to the client is a 400-class status. -/
def is400Class (o : ConnectOutcome) : Bool :=
  match o.response with
  | some s => strStarts s "HTTP/1.1 4"
  | none => false

/-- C4 counterexample: for the malformed target `:::notvalid` the proxy
does not reject with a 400-class response — with all resolution
strategies failing it answers `502 Bad Gateway`; and with the DoT stub
strategy "succeeding" (it always yields `1.1.1.1`), the proxy even dials
a destination for the malformed request. -/
theorem connectHandler_malformed_not_400 :
    is400Class (connectHandler (fun _ => none) ":::notvalid") = false ∧
      (connectHandler (fun _ => none) ":::notvalid").response
        = some "HTTP/1.1 502 Bad Gateway\r\n\r\n" ∧
      (connectHandler (fun _ => some "1.1.1.1") ":::notvalid").contacted
        = some ("1.1.1.1", 443) := by decide

/-- C4 amended: a malformed CONNECT target is not rejected up front; the
handler always attempts to resolve the (possibly empty) parsed host.
When resolution fails, the client gets `502 Bad Gateway` (not a
400-class response) and no destination is contacted; when resolution
returns an address, the proxy dials it at the parsed port. -/
theorem connectHandler_spec (url : String)
    (resolve : String → Option String) :
    (resolve (connectTarget url).1 = none →
      (connectHandler resolve url).response
          = some "HTTP/1.1 502 Bad Gateway\r\n\r\n" ∧
        (connectHandler resolve url).contacted = none) ∧
    (∀ ip, resolve (connectTarget url).1 = some ip →
      (connectHandler resolve url).contacted
        = some (ip, (connectTarget url).2)) := by
  constructor
  · intro hres
    simp only [connectHandler]
    rw [hres]
    exact ⟨rfl, rfl⟩
  · intro ip hres
    simp only [connectHandler]
    rw [hres]

/-- C4 witness: the amended theorem at the malformed target
`:::notvalid` with an all-failing resolver. -/
theorem connectHandler_spec_witness :
    (connectHandler (fun _ => none) ":::notvalid").response
        = some "HTTP/1.1 502 Bad Gateway\r\n\r\n" ∧
      (connectHandler (fun _ => none) ":::notvalid").contacted = none :=
  (connectHandler_spec ":::notvalid" (fun _ => none)).1 rfl

/-! ## CONNECT tunnel event handlers (part_006 lines 1060-1098,
part_000 lines 250-281)

Once the tunnel is set up, the registered socket event handlers are pure
state transformers on the pair of socket states.  part_006 registers a
`'timeout'` handler on each socket that destroys *that socket only*;
part_000 (first program) calls `setTimeout(60000)` on both sockets but
registers no `'timeout'` listener at all, so in that variant the timeout
event performs no action.  `end` on a socket is modelled as the `ended`
flag (a graceful half-close), `destroy` as the `destroyed` flag. -/

structure SockState where
  destroyed : Bool
  ended : Bool
deriving DecidableEq

structure TunnelState where
  client : SockState
  target : SockState
deriving DecidableEq

inductive TEvent where
  | clientTimeout
  | targetTimeout
  | clientErr
  | targetErr
  | clientEnd
  | targetEnd
  | clientData
  | targetData

/-- The part_006 CONNECT tunnel handlers as a step function. -/
def tunnelStep6 (s : TunnelState) : TEvent → TunnelState
  | TEvent.targetErr =>
    if s.client.destroyed = false then
      { s with client := { s.client with ended := true } }
    else s
  | TEvent.clientErr =>
    if s.target.destroyed = false then
      { s with target := { s.target with ended := true } }
    else s
  | TEvent.targetTimeout =>
    if s.target.destroyed = false then
      { s with target := { s.target with destroyed := true } }
    else s
  | TEvent.clientTimeout =>
    if s.client.destroyed = false then
      { s with client := { s.client with destroyed := true } }
    else s
  | TEvent.targetEnd =>
    if s.client.destroyed = false then
      { s with client := { s.client with ended := true } }
    else s
  | TEvent.clientEnd =>
    if s.target.destroyed = false then
      { s with target := { s.target with ended := true } }
    else s
  | TEvent.clientData => s
  | TEvent.targetData => s

/-- The part_000 (first program) CONNECT tunnel handlers: identical
error/end handlers, but no `'timeout'` listener, so timeout events are
no-ops. -/
def tunnelStep0 (s : TunnelState) : TEvent → TunnelState
  | TEvent.targetErr =>
    if s.client.destroyed = false then
      { s with client := { s.client with ended := true } }
    else s
  | TEvent.clientErr =>
    if s.target.destroyed = false then
      { s with target := { s.target with ended := true } }
    else s
  | TEvent.targetTimeout => s
  | TEvent.clientTimeout => s
  | TEvent.targetEnd =>
    if s.client.destroyed = false then
      { s with client := { s.client with ended := true } }
    else s
  | TEvent.clientEnd =>
    if s.target.destroyed = false then
      { s with target := { s.target with ended := true } }
    else s
  | TEvent.clientData => s
  | TEvent.targetData => s

/-- A freshly established tunnel: nothing closed on either side. -/
def establishedTunnel : TunnelState :=
  { client := { destroyed := false, ended := false }
    target := { destroyed := false, ended := false } }

/-- C7 counterexample: a fired idle timeout does not destroy both
transports.  In part_006 the destination-side timeout destroys only the
destination socket and leaves the client socket untouched; in the
part_000 variant a timeout event destroys nothing at all (no listener is
registered), so that tunnel is never torn down by its idle timers. -/
theorem tunnelStep_single_timeout_not_both :
    ((tunnelStep6 establishedTunnel TEvent.targetTimeout).target.destroyed
        = true ∧
      (tunnelStep6 establishedTunnel TEvent.targetTimeout).client.destroyed
        = false) ∧
    (tunnelStep0 establishedTunnel TEvent.targetTimeout = establishedTunnel ∧
      tunnelStep0 establishedTunnel TEvent.clientTimeout
        = establishedTunnel) := by decide

/-- C7 amended: in part_006 each socket's idle timeout destroys only that
socket; in the silent-tunnel scenario both sockets are idle, both timers
fire, and after both timeout events both transports are destroyed, so the
tunnel does not hang forever.  Data events alone never destroy a
transport, so no teardown happens before a timeout (or error/EOF)
event.  The part_000 variant installs no timeout listener. -/
theorem tunnelStep6_both_timeouts_close_both (s : TunnelState) :
    ((tunnelStep6 (tunnelStep6 s TEvent.targetTimeout)
        TEvent.clientTimeout).target.destroyed = true ∧
      (tunnelStep6 (tunnelStep6 s TEvent.targetTimeout)
        TEvent.clientTimeout).client.destroyed = true) ∧
    (tunnelStep6 s TEvent.clientData = s ∧
      tunnelStep6 s TEvent.targetData = s) := by
  obtain ⟨⟨cd, ce⟩, ⟨td, te⟩⟩ := s
  refine ⟨?_, rfl, rfl⟩
  cases cd <;> cases td <;> simp [tunnelStep6]

/-! ## Bidirectional flow with fragmentation and jitter
(`setupBidirectionalFlow`, part_006 lines 649-718)

Each `'data'` event fragments its buffer, writes the first chunk
immediately, and schedules the remaining chunks one at a time on jitter
timers.  A chain of not-yet-written chunks is therefore pending per data
event, and a later data event starts its own chain at once.  The state
records the bytes written to the opposite transport (in order) and the
pending chains; a `timer i` event fires the next chunk of pending chain
`i` (the happy path: the opposite transport stays writable). -/

structure FlowState where
  written : List Nat
  chains : List (List (List Nat))
deriving DecidableEq

inductive FEvent where
  | data (buf : List Nat)
  | timer (i : Nat)

def flowStep (rnd : Nat → Nat) (cfg : FragConfig) (fuel : Nat)
    (s : FlowState) : FEvent → FlowState
  | FEvent.data buf =>
    match fragmentData rnd cfg fuel buf with
    | none => s
    | some [] => s
    | some (c :: rest) =>
      { written := s.written ++ c
        chains := if rest.isEmpty then s.chains else s.chains ++ [rest] }
  | FEvent.timer i =>
    match s.chains.getD i [] with
    | [] => s
    | c :: rest =>
      { written := s.written ++ c
        chains :=
          if rest.isEmpty then s.chains.eraseIdx i else s.chains.set i rest }

def flowRun (rnd : Nat → Nat) (cfg : FragConfig) (fuel : Nat)
    (evs : List FEvent) : FlowState :=
  evs.foldl (flowStep rnd cfg fuel) { written := [], chains := [] }

/-- C8: with fragmentation bounds `[1, 2]` and chunk draws of constant 1,
the buffer `[10, 20]` fragments to `[[10], [20]]`; its first chunk is
written immediately and `[20]` waits on a jitter timer.  A second data
event `[30]` arriving before that timer fires writes `[30]` at once, and
only then does the timer emit `[20]`: the relayed stream is
`[10, 30, 20]`, a reordering of the inputs `[10, 20] ++ [30]`. -/
theorem flowRun_reorders_across_data_events :
    (flowRun (fun _ => 0) ⟨true, 1, 2⟩ 4
        [FEvent.data [10, 20], FEvent.data [30], FEvent.timer 0]).written
      = [10, 30, 20] ∧
    ([10, 30, 20] : List Nat) ≠ [10, 20] ++ [30] := by decide

/-! ## Client-visible error bodies (part_006 lines 974-980, part_000
lines 206-212, src/src/middlewares/proxy.js lines 235-239)

Every variant interpolates the underlying error's `message` into the
body sent to the client. -/

/-- The part_006 / part_000 request-path error handler: when headers have
not been sent, answer 502 with a body embedding `err.message`. -/
def proxyReqErrorResponse (headersSent : Bool) (msg : String) :
    Option (Nat × String) :=
  if headersSent then none
  else some (502, "Proxy error: " ++ msg)

/-- The `superSmartProxy` catch handler of
src/src/middlewares/proxy.js: a 500 body embedding `err.message`,
directly under the comment "Generic error message to avoid leaking
information". -/
def superSmartProxyErrorBody (msg : String) : String :=
  "Proxy error occurred: " ++ msg

/-- A typical upstream connect failure message, carrying the resolved
destination address. -/
def cexUpstreamErrMsg : String := "connect ECONNREFUSED 93.184.216.34:443"

/-- C9: the client-visible error bodies are not generic — the underlying
error message text (here carrying an internal resolved IP address)
appears verbatim inside the response body, in both the relay handlers
and the `superSmartProxy` handler, and the body therefore varies with
the internal error. -/
theorem errorResponse_embeds_error_message :
    proxyReqErrorResponse false cexUpstreamErrMsg
        = some (502, "Proxy error: " ++ cexUpstreamErrMsg) ∧
      cexUpstreamErrMsg.toList <:+:
        ("Proxy error: " ++ cexUpstreamErrMsg).toList ∧
      cexUpstreamErrMsg.toList <:+:
        (superSmartProxyErrorBody cexUpstreamErrMsg).toList ∧
      proxyReqErrorResponse false "boom"
        ≠ proxyReqErrorResponse false cexUpstreamErrMsg := by
  refine ⟨rfl, ⟨"Proxy error: ".toList, [], by decide⟩,
    ⟨"Proxy error occurred: ".toList, [], by decide⟩, by decide⟩

/-! ## WebSocket upgrade handler (`setupWebSocketTunnel`, part_006 lines
540-646)

The `'upgrade'` listener acts only when `req.url` starts with
`config.websocket.path`; there is no `else` branch, so any other upgrade
request is simply left alone: nothing is written and the socket is not
destroyed.  Inside the branch: a missing `target` query parameter gets
`400` + destroy; a `new URL` failure or resolver rejection lands in the
catch (`500` + destroy); success writes the `101` handshake. -/

/-- Characters after the first `?` of the URL. -/
def afterQMark : List Char → List Char
  | [] => []
  | '?' :: rest => rest
  | _ :: rest => afterQMark rest

/-- `new URL('http://localhost' + req.url).searchParams.get(key)`:
first `key=value` pair of the query string (percent-decoding elided —
no claim depends on it). -/
def getQueryParam (url key : String) : Option String :=
  (splitOnChar '&' (afterQMark url.toList)).findSome? (fun kv =>
    let k := kv.takeWhile (fun c => ¬ c = '=')
    if String.mk k = key then
      some (String.mk
        (if k.length < kv.length then kv.drop (k.length + 1) else []))
    else none)

/-- Skip an absolute URL's scheme: everything up to and including
`://`; `none` when there is no `://` (then `new URL(target)` throws). -/
def dropThroughScheme : List Char → Option (List Char)
  | ':' :: '/' :: '/' :: rest => some rest
  | _ :: rest => dropThroughScheme rest
  | [] => none

/-- The hostname of `new URL(target)`: the authority up to the first
`/`, `:` or `?`; `none` when the target cannot be parsed. -/
def parseTargetHostname (t : String) : Option String :=
  match dropThroughScheme t.toList with
  | none => none
  | some rest =>
    let host := rest.takeWhile (fun c => ¬ (c = '/' ∨ c = ':' ∨ c = '?'))
    if host.isEmpty then none else some (String.mk host)

structure UpgradeOutcome where
  wrote : List String
  destroyed : Bool
deriving DecidableEq

def wsHandshake : String :=
  "HTTP/1.1 101 Switching Protocols\r\nUpgrade: websocket\r\nConnection: Upgrade\r\n\r\n"

/-- The part_006 `'upgrade'` listener as a function from the request URL
to what is written on the client socket and whether it is destroyed,
with the resolver chain injected. -/
def upgradeHandler (wsPath : String) (resolve : String → Option String)
    (url : String) : UpgradeOutcome :=
  if strStarts url wsPath then
    match getQueryParam url "target" with
    | none =>
      { wrote := ["HTTP/1.1 400 Bad Request\r\n\r\n"], destroyed := true }
    | some target =>
      match parseTargetHostname target with
      | none =>
        { wrote := ["HTTP/1.1 500 Internal Server Error\r\n\r\n"]
          destroyed := true }
      | some host =>
        match resolve host with
        | none =>
          { wrote := ["HTTP/1.1 500 Internal Server Error\r\n\r\n"]
            destroyed := true }
        | some _ => { wrote := [wsHandshake], destroyed := false }
  else { wrote := [], destroyed := false }

/-- C10: for every upgrade request whose URL does not start with the
configured WebSocket tunnel path, the upgrade handler writes nothing and
does not destroy the client socket — the connection is left open with no
handshake, error status, or teardown. -/
theorem upgradeHandler_nonmatching_noop (wsPath : String)
    (resolve : String → Option String) (url : String)
    (h : strStarts url wsPath = false) :
    upgradeHandler wsPath resolve url
      = { wrote := [], destroyed := false } := by
  simp [upgradeHandler, h]

/-- C10 witness: a `/health` upgrade request against the configured
`/api/stream` path. -/
theorem upgradeHandler_nonmatching_noop_witness :
    upgradeHandler "/api/stream" (fun _ => some "1.2.3.4") "/health"
      = { wrote := [], destroyed := false } :=
  upgradeHandler_nonmatching_noop "/api/stream" (fun _ => some "1.2.3.4")
    "/health" (by decide)

end ProxyJoke
